import Mathlib

/-!
Verification of the Interactive Form Demo (src/hc/ref.py).

The script builds a fixed widget tree once at startup and binds two
callbacks: `handle_button_click` (the Greet Handler) and `clear_text_box`
(the Clear Handler).  We embed the observable widget state as a structure
and each handler as a pure state transformer, following the Python
statements line by line.
-/

namespace HCIRef

/-- The widgets constructed during module-level setup, identified by the
Python variable names, in construction order. -/
inductive WidgetId where
  | window
  | main_frame
  | name_label
  | name_entry
  | greet_button
  | result_label
  | separator
  | text_label
  | info_text_box
  | clear_button
deriving DecidableEq, Repr

/-- The list of widgets created by the module-level setup, in the order the
source constructs them (lines 64-127 of ref.py). -/
def startupWidgets : List WidgetId :=
  [WidgetId.window, WidgetId.main_frame, WidgetId.name_label,
   WidgetId.name_entry, WidgetId.greet_button, WidgetId.result_label,
   WidgetId.separator, WidgetId.text_label, WidgetId.info_text_box,
   WidgetId.clear_button]

/-- The mutable widget state of the application: the set of existing
widgets, the Entry text (`name_entry`), the Label text (`result_label`)
and the Text-widget content (`info_text_box`). -/
structure AppState where
  widgets : List WidgetId
  name_entry : String
  result_label : String
  info_text_box : String
deriving DecidableEq, Repr

/-- Embedding of `handle_button_click` (ref.py lines 27-45):
reads `name_entry.get()`, substitutes "World" when the string is empty
(Python `if not user_name`), formats the greeting f-string and writes it
into `result_label` via `.config(text=greeting)`. -/
def handle_button_click (s : AppState) : AppState :=
  let user_name := s.name_entry
  let user_name := if user_name = "" then "World" else user_name
  let greeting := "Hello, " ++ user_name ++ "! Welcome to HCI."
  { s with result_label := greeting }

/-- Embedding of `clear_text_box` (ref.py lines 47-56):
`info_text_box.delete(\x7b1.0\x7d, tk.END)` empties the Text widget, then
`insert` at position 1.0 puts "Text cleared!" at the front of the (now
empty) content. -/
def clear_text_box (s : AppState) : AppState :=
  let cleared := { s with info_text_box := "" }
  { cleared with info_text_box := "Text cleared!" ++ cleared.info_text_box }

/-- First line inserted into the Text widget at setup (ref.py line 121). -/
def infoLine1 : String := "This is a Text widget. It can hold multiple lines.\n"

/-- Second line inserted into the Text widget at setup (ref.py line 122). -/
def infoLine2 : String :=
  "The button above will \x27get\x27 from the \x27Entry\x27 and \x27config\x27 the label.\n"

/-- The state after module-level setup and before any interaction: the
Entry starts empty, `result_label` is constructed with the waiting text
(line 104), and the Text widget starts empty and receives two
`insert(tk.END, ...)` calls (lines 121-122). -/
def initialState : AppState :=
  let s0 : AppState :=
    { widgets := startupWidgets
      name_entry := ""
      result_label := "...waiting for a greeting..."
      info_text_box := "" }
  let s1 := { s0 with info_text_box := s0.info_text_box ++ infoLine1 }
  { s1 with info_text_box := s1.info_text_box ++ infoLine2 }

/-- A user interaction dispatched by the event loop: a click on
`greet_button` or on `clear_button`. -/
inductive Event where
  | greetClick
  | clearClick
deriving DecidableEq, Repr

/-- Dispatch one event to its bound handler (the `command` bindings at
ref.py lines 99 and 126). -/
def step : Event → AppState → AppState
  | Event.greetClick, s => handle_button_click s
  | Event.clearClick, s => clear_text_box s

/-- Run a sequence of user interactions through the event loop. -/
def runEvents : List Event → AppState → AppState
  | [], s => s
  | e :: es, s => runEvents es (step e s)

theorem handle_button_click_widgets (s : AppState) :
    (handle_button_click s).widgets = s.widgets := rfl

theorem clear_text_box_widgets (s : AppState) :
    (clear_text_box s).widgets = s.widgets := rfl

theorem runEvents_widgets (es : List Event) (s : AppState) :
    (runEvents es s).widgets = s.widgets := by
  induction es generalizing s with
  | nil => rfl
  | cons e es ih =>
    have h := ih (step e s)
    rw [runEvents, h]
    cases e <;> rfl

/-- Claim C1: for every state whose TextInput (`name_entry`) holds a string
of length > 0, the Greet Handler sets DisplayLabel (`result_label`) to
exactly "Hello, " ++ s ++ "! Welcome to HCI.". -/
theorem greet_nonempty (s : AppState) (h : 0 < s.name_entry.length) :
    (handle_button_click s).result_label =
      "Hello, " ++ s.name_entry ++ "! Welcome to HCI." := by
  have hne : s.name_entry ≠ "" := by
    intro he
    rw [he] at h
    simp at h
  simp [handle_button_click, hne]

/-- Witness for C1 at the concrete input "Ada". -/
theorem greet_nonempty_witness :
    0 < (AppState.mk startupWidgets "Ada" "" "").name_entry.length ∧
    (handle_button_click (AppState.mk startupWidgets "Ada" "" "")).result_label
      = "Hello, Ada! Welcome to HCI." :=
  ⟨by decide, (greet_nonempty (AppState.mk startupWidgets "Ada" "" "") (by decide)).trans rfl⟩

/-- Claim C2: when TextInput (`name_entry`) holds the empty string, the
Greet Handler substitutes the default "World" and sets DisplayLabel to
exactly "Hello, World! Welcome to HCI.". -/
theorem greet_empty (s : AppState) (h : s.name_entry = "") :
    (handle_button_click s).result_label = "Hello, World! Welcome to HCI." := by
  simp [handle_button_click, h]

/-- Witness for C2 at the initial state, whose Entry is empty. -/
theorem greet_empty_witness :
    initialState.name_entry = "" ∧
    (handle_button_click initialState).result_label =
      "Hello, World! Welcome to HCI." :=
  ⟨rfl, greet_empty initialState rfl⟩

/-- Claim C3: from any prior state, the Clear Handler replaces the whole
content of MultilineTextArea (`info_text_box`) with exactly
"Text cleared!". -/
theorem clear_sets_text (s : AppState) :
    (clear_text_box s).info_text_box = "Text cleared!" := rfl

/-- Claim C4: the Greet Handler mutates DisplayLabel only: `name_entry`,
`info_text_box` and the widget set are unchanged by an invocation. -/
theorem greet_frame (s : AppState) :
    (handle_button_click s).name_entry = s.name_entry ∧
    (handle_button_click s).info_text_box = s.info_text_box ∧
    (handle_button_click s).widgets = s.widgets :=
  ⟨rfl, rfl, rfl⟩

/-- Claim C5: the Clear Handler is idempotent: invoking it twice from any
state yields exactly the same whole application state as invoking it
once. -/
theorem clear_idempotent (s : AppState) :
    clear_text_box (clear_text_box s) = clear_text_box s := rfl

/-- Claim C6: in the initial state, MultilineTextArea contains exactly the
two literal newline-terminated lines inserted at setup, and DisplayLabel
reads exactly "...waiting for a greeting...". -/
theorem initial_state_contents :
    initialState.info_text_box =
      "This is a Text widget. It can hold multiple lines.\n" ++
      "The button above will \x27get\x27 from the \x27Entry\x27 and \x27config\x27 the label.\n" ∧
    initialState.result_label = "...waiting for a greeting..." :=
  ⟨rfl, rfl⟩

/-- Claim C7: both handlers are total over every widget state — each
returns a resulting state with no error outcome — and empty-string input
to the Greet Handler is handled by default substitution, not as an
error. -/
theorem handlers_total (s : AppState) :
    (∃ t, handle_button_click s = t) ∧ (∃ t, clear_text_box s = t) ∧
    (handle_button_click { s with name_entry := "" }).result_label =
      "Hello, World! Welcome to HCI." :=
  ⟨⟨handle_button_click s, rfl⟩, ⟨clear_text_box s, rfl⟩, rfl⟩

/-- Claim C8: after any sequence of Greet and Clear invocations the set of
widgets equals the set constructed at startup; no handler creates or
destroys a widget from any state. -/
theorem widget_set_invariant (es : List Event) :
    (runEvents es initialState).widgets = startupWidgets ∧
    ∀ s : AppState, (runEvents es s).widgets = s.widgets :=
  ⟨(runEvents_widgets es initialState).trans rfl,
   fun s => runEvents_widgets es s⟩

/-- Claim C9: the Clear Handler mutates MultilineTextArea only:
`name_entry`, `result_label` and the widget set are unchanged by an
invocation. -/
theorem clear_frame (s : AppState) :
    (clear_text_box s).name_entry = s.name_entry ∧
    (clear_text_box s).result_label = s.result_label ∧
    (clear_text_box s).widgets = s.widgets :=
  ⟨rfl, rfl, rfl⟩

/-- Claim C10: the Greet Handler output depends only on the Entry content:
two states agreeing on `name_entry` yield identical `result_label`
contents after invocation, whatever their other fields hold. -/
theorem greet_deterministic (s₁ s₂ : AppState) (h : s₁.name_entry = s₂.name_entry) :
    (handle_button_click s₁).result_label = (handle_button_click s₂).result_label := by
  simp [handle_button_click, h]

/-- Witness for C10: two states sharing Entry text "Ada" but differing
elsewhere produce the same label. -/
theorem greet_deterministic_witness :
    (AppState.mk startupWidgets "Ada" "x" "y").name_entry =
      (AppState.mk startupWidgets "Ada" "u" "v").name_entry ∧
    (handle_button_click (AppState.mk startupWidgets "Ada" "x" "y")).result_label =
      (handle_button_click (AppState.mk startupWidgets "Ada" "u" "v")).result_label :=
  ⟨rfl, greet_deterministic (AppState.mk startupWidgets "Ada" "x" "y")
    (AppState.mk startupWidgets "Ada" "u" "v") rfl⟩

end HCIRef
